import Mathlib

/-!
Verification of "The Panel" provider-abstraction and tool-loading subsystem.

Shallow embedding of the Python source:
  - src/providers/{ollama,openai,deepseek,mhw}.py : model catalogs and
    interpreter configuration per backend;
  - src/config.py : environment-driven configuration resolution;
  - src/app.py : orchestration-level configure with fallback;
  - src/tools/manager.py : tool registry, GitHub acquisition, MCP servers.

Network fetches, the process environment, git clones and dynamic imports are
external effects; they are modelled as explicit inputs (a `Fetch` value, an
`Env` record, a `CloneOutcome`, an `Except`-valued load result), and each
Python method becomes a pure Lean function of those inputs plus the relevant
mutable state, returning the new state.
-/

namespace ThePanel

/-- Char-list test that `l` starts with `pat`. -/
def listStartsWith : List Char → List Char → Bool
  | _, [] => true
  | [], _ :: _ => false
  | c :: cs, p :: ps => c == p && listStartsWith cs ps

/-- Helper for `strContains`: does `pat` occur (contiguously) in the list? -/
def strContainsAux (pat : List Char) : List Char → Bool
  | [] => pat.isEmpty
  | c :: cs => listStartsWith (c :: cs) pat || strContainsAux pat cs

/-- Python `pat in s` substring test. -/
def strContains (s pat : String) : Bool :=
  strContainsAux pat.data s.data

/-- Python `s.lower()` (ASCII). -/
def strToLower (s : String) : String :=
  ⟨s.data.map Char.toLower⟩

/-- Python `s.startswith(pat)`. -/
def strStartsWith (s pat : String) : Bool :=
  listStartsWith s.data pat.data

/-- Helper for `strReplace`: left-to-right non-overlapping replacement of the
nonempty pattern `pat` by `rep`; `fuel` (initially the list length) bounds the
recursion. -/
def strReplaceAux (pat rep : List Char) : Nat → List Char → List Char
  | _, [] => []
  | 0, l => l
  | fuel + 1, c :: cs =>
    if listStartsWith (c :: cs) pat then
      rep ++ strReplaceAux pat rep fuel ((c :: cs).drop pat.length)
    else
      c :: strReplaceAux pat rep fuel cs

/-- Python `s.replace(pat, rep)` for a nonempty `pat` (all patterns in this
code base are nonempty literals; an empty pattern leaves `s` unchanged). -/
def strReplace (s pat rep : String) : String :=
  if pat.data.isEmpty then s
  else ⟨strReplaceAux pat.data rep.data s.data.length s.data⟩

/-- Helper for `titlecase`: Python `str.title()` over a char list; `prev`
records whether the previous character was alphabetic. -/
def titlecaseAux : Bool → List Char → List Char
  | _, [] => []
  | prev, c :: cs =>
    if c.isAlpha then
      (if prev then c.toLower else c.toUpper) :: titlecaseAux true cs
    else
      c :: titlecaseAux false cs

/-- Python `str.title()` (ASCII): first letter of each alphabetic run is
uppercased, the rest lowercased, non-letters unchanged. -/
def titlecase (s : String) : String :=
  ⟨titlecaseAux false s.data⟩

/-- Stable insertion of `a` into `l`, placing `a` before the first element it
compares `le` to (mirrors the stability of Python's `list.sort`). -/
def orderedInsert {α : Type} (le : α → α → Bool) (a : α) : List α → List α
  | [] => [a]
  | b :: l => if le a b then a :: b :: l else b :: orderedInsert le a l

/-- Stable sort by a boolean `le`, mirroring Python's stable `list.sort`. -/
def stableSort {α : Type} (le : α → α → Bool) : List α → List α
  | [] => []
  | a :: l => orderedInsert le a (stableSort le l)

/-- A model descriptor as built by every provider's `list_models`:
`id`, `name`, `family`, and the raw backend payload entry as `details`
(`none` for the hardcoded fallback entries, which carry no `details` key). -/
structure Model (δ : Type) where
  id : String
  name : String
  family : String
  details : Option δ
deriving DecidableEq, Repr

/-- Python string `<` by code points, over char lists. -/
def charListLt : List Char → List Char → Bool
  | _, [] => false
  | [], _ :: _ => true
  | a :: as, b :: bs =>
    Nat.blt a.toNat b.toNat || (Nat.beq a.toNat b.toNat && charListLt as bs)

/-- Python string `<` by code points. -/
def strLt (a b : String) : Bool :=
  charListLt a.data b.data

/-- Python string `<=` by code points. -/
def strLe (a b : String) : Bool :=
  strLt a b || a == b

/-- Python tuple comparison on the sort key `(family, name)` used by the
ollama, deepseek and mhw providers (`models.sort(key=lambda x: (x["family"],
x["name"]))`). -/
def famNameLe {δ : Type} (a b : Model δ) : Bool :=
  strLt a.family b.family ||
    (a.family == b.family && strLe a.name b.name)

/-- Outcome of the `requests.get` catalog fetch as seen by `list_models`:
either some exception was raised inside the `try` block (transport error, or
a `.json()` parse failure), or a response arrived with the given status code
and, when the status is 200, a successfully parsed payload list (the value of
the `"models"` / `"data"` key, `[]` when the key is absent). -/
inductive Fetch (π : Type) where
  | error : Fetch π
  | response (status : Nat) (payload : List π) : Fetch π
deriving DecidableEq, Repr

/-! ## OllamaProvider (src/providers/ollama.py) -/

/-- One entry of the ollama `/api/tags` payload; only the `"name"` key is
read by the provider (`model.get("name", "")`). -/
structure OllamaApiModel where
  name : String
deriving DecidableEq, Repr

/-- The hardcoded `default_models` list of `OllamaProvider.list_models`,
in source order. -/
def OllamaProvider.default_models : List (Model OllamaApiModel) :=
  [ { id := "llama3", name := "Llama 3", family := "Llama", details := none },
    { id := "llama2", name := "Llama 2", family := "Llama", details := none },
    { id := "mistral", name := "Mistral", family := "Mistral", details := none },
    { id := "mixtral", name := "Mixtral", family := "Mistral", details := none },
    { id := "codellama", name := "Code Llama", family := "Llama", details := none } ]

/-- The family-classification chain of `OllamaProvider.list_models`
(note the `"llama"` test subsumes the later `"codellama"` test, and the
`"mistral"` test precedes the `"mixtral"` test, exactly as in the source). -/
def OllamaProvider.family (model_id : String) : String :=
  let l := strToLower model_id
  if strContains l "llama" then "Llama"
  else if strContains l "mistral" then "Mistral"
  else if strContains l "mixtral" then "Mistral"
  else if strContains l "codellama" then "Llama"
  else if strContains l "gemma" then "Gemma"
  else "Other"

/-- The success-path normalization of `OllamaProvider.list_models`: map each
payload entry to a descriptor, then sort by `(family, name)`. -/
def OllamaProvider.normalize (payload : List OllamaApiModel) :
    List (Model OllamaApiModel) :=
  stableSort famNameLe (payload.map fun m =>
    { id := m.name,
      name := titlecase (strReplace m.name "-" " "),
      family := OllamaProvider.family m.name,
      details := some m })

/-- `OllamaProvider.list_models` as a function of the instance's
`_models_cache` and the fetch outcome; returns the result together with the
new cache. -/
def OllamaProvider.list_models (cache : Option (List (Model OllamaApiModel)))
    (fetch : Fetch OllamaApiModel) :
    List (Model OllamaApiModel) × Option (List (Model OllamaApiModel)) :=
  match cache with
  | some ms => (ms, some ms)
  | none =>
    match fetch with
    | .error => (OllamaProvider.default_models, none)
    | .response status payload =>
      if status == 200 then
        let models := OllamaProvider.normalize payload
        (models, some models)
      else
        (OllamaProvider.default_models, none)

/-! ## OpenAIProvider (src/providers/openai.py) -/

/-- One entry of the OpenAI `/models` payload; only the `"id"` key is read
(`model.get("id", "")`). -/
structure OpenAIApiModel where
  id : String
deriving DecidableEq, Repr

/-- The hardcoded `default_models` list of `OpenAIProvider.list_models`,
in source order. -/
def OpenAIProvider.default_models : List (Model OpenAIApiModel) :=
  [ { id := "gpt-4o", name := "GPT-4o", family := "GPT-4", details := none },
    { id := "gpt-4-turbo", name := "GPT-4 Turbo", family := "GPT-4", details := none },
    { id := "gpt-4", name := "GPT-4", family := "GPT-4", details := none },
    { id := "gpt-3.5-turbo", name := "GPT-3.5 Turbo", family := "GPT-3.5", details := none } ]

/-- The OpenAI family rank used by the sort key `(0 if family == "GPT-4" else
(1 if family == "GPT-3.5" else 2), name)`. -/
def OpenAIProvider.familyRank (family : String) : Nat :=
  if family == "GPT-4" then 0 else if family == "GPT-3.5" then 1 else 2

/-- The OpenAI sort key comparison: family rank first, then name. -/
def OpenAIProvider.sortLe {δ : Type} (a b : Model δ) : Bool :=
  Nat.blt (OpenAIProvider.familyRank a.family) (OpenAIProvider.familyRank b.family) ||
    (Nat.beq (OpenAIProvider.familyRank a.family) (OpenAIProvider.familyRank b.family) &&
      strLe a.name b.name)

/-- The success-path normalization of `OpenAIProvider.list_models`: keep only
ids containing `"gpt"` (lower-cased), classify the family by the
case-sensitive `"gpt-4"` / `"gpt-3.5"` substring tests, build the display
name, then sort by the OpenAI-specific key. -/
def OpenAIProvider.normalize (payload : List OpenAIApiModel) :
    List (Model OpenAIApiModel) :=
  stableSort OpenAIProvider.sortLe
    ((payload.filter fun m => strContains (strToLower m.id) "gpt").map fun m =>
      { id := m.id,
        name := strReplace m.id "gpt-" "GPT-",
        family :=
          if strContains m.id "gpt-4" then "GPT-4"
          else if strContains m.id "gpt-3.5" then "GPT-3.5"
          else "Other GPT",
        details := some m })

/-- `OpenAIProvider.list_models` as a function of `_models_cache` and the
fetch outcome. -/
def OpenAIProvider.list_models (cache : Option (List (Model OpenAIApiModel)))
    (fetch : Fetch OpenAIApiModel) :
    List (Model OpenAIApiModel) × Option (List (Model OpenAIApiModel)) :=
  match cache with
  | some ms => (ms, some ms)
  | none =>
    match fetch with
    | .error => (OpenAIProvider.default_models, none)
    | .response status payload =>
      if status == 200 then
        let models := OpenAIProvider.normalize payload
        (models, some models)
      else
        (OpenAIProvider.default_models, none)

/-! ## DeepseekProvider (src/providers/deepseek.py) -/

/-- One entry of the Deepseek `/models` payload; only the `"id"` key is read. -/
structure DeepseekApiModel where
  id : String
deriving DecidableEq, Repr

/-- The hardcoded `default_models` list of `DeepseekProvider.list_models`,
in source order. -/
def DeepseekProvider.default_models : List (Model DeepseekApiModel) :=
  [ { id := "deepseek-chat", name := "Deepseek Chat", family := "Deepseek Chat", details := none },
    { id := "deepseek-coder", name := "Deepseek Coder", family := "Deepseek Coder", details := none } ]

/-- The success-path normalization of `DeepseekProvider.list_models`: map the
payload, substitute the defaults when the mapped list is empty, then sort by
`(family, name)`. -/
def DeepseekProvider.normalize (payload : List DeepseekApiModel) :
    List (Model DeepseekApiModel) :=
  let models := payload.map fun m =>
    { id := m.id,
      name := titlecase (strReplace m.id "deepseek-" "Deepseek "),
      family :=
        if strContains (strToLower m.id) "coder" then "Deepseek Coder"
        else "Deepseek Chat",
      details := some m }
  let models := if models.isEmpty then DeepseekProvider.default_models else models
  stableSort famNameLe models

/-- `DeepseekProvider.list_models` as a function of `_models_cache` and the
fetch outcome. -/
def DeepseekProvider.list_models (cache : Option (List (Model DeepseekApiModel)))
    (fetch : Fetch DeepseekApiModel) :
    List (Model DeepseekApiModel) × Option (List (Model DeepseekApiModel)) :=
  match cache with
  | some ms => (ms, some ms)
  | none =>
    match fetch with
    | .error => (DeepseekProvider.default_models, none)
    | .response status payload =>
      if status == 200 then
        let models := DeepseekProvider.normalize payload
        (models, some models)
      else
        (DeepseekProvider.default_models, none)

/-! ## MHWProvider (src/providers/mhw.py) -/

/-- One entry of the MHW `/models` payload: `"id"` plus optional `"name"` and
`"family"` keys (read via `model.get` with defaults). -/
structure MHWApiModel where
  id : String
  name : Option String
  family : Option String
deriving DecidableEq, Repr

/-- The hardcoded `default_models` list of `MHWProvider.list_models`,
in source order. -/
def MHWProvider.default_models : List (Model MHWApiModel) :=
  [ { id := "default", name := "MHW Default", family := "MHW", details := none },
    { id := "mhw-1", name := "MHW-1", family := "MHW", details := none } ]

/-- The success-path normalization of `MHWProvider.list_models`: the name is
`model.get("name", model_id)` with a falsy (empty) result replaced by the
titlecased id, the family is `model.get("family", "MHW")` with a falsy result
replaced by `"MHW"`; defaults substituted when the mapped list is empty, then
sorted by `(family, name)`. -/
def MHWProvider.normalize (payload : List MHWApiModel) :
    List (Model MHWApiModel) :=
  let models := payload.map fun m =>
    let name0 := m.name.getD m.id
    let name := if name0 == "" then titlecase (strReplace m.id "-" " ") else name0
    let family0 := m.family.getD "MHW"
    let family := if family0 == "" then "MHW" else family0
    { id := m.id, name := name, family := family, details := some m }
  let models := if models.isEmpty then MHWProvider.default_models else models
  stableSort famNameLe models

/-- `MHWProvider.list_models` as a function of `_models_cache` and the fetch
outcome. -/
def MHWProvider.list_models (cache : Option (List (Model MHWApiModel)))
    (fetch : Fetch MHWApiModel) :
    List (Model MHWApiModel) × Option (List (Model MHWApiModel)) :=
  match cache with
  | some ms => (ms, some ms)
  | none =>
    match fetch with
    | .error => (MHWProvider.default_models, none)
    | .response status payload =>
      if status == 200 then
        let models := MHWProvider.normalize payload
        (models, some models)
      else
        (MHWProvider.default_models, none)

/-! ## Interpreter configuration (src/providers/ollama.py, deepseek.py) -/

/-- The `interpreter.llm` fields written by the providers. -/
structure LLMState where
  model : String
  api_key : String
  api_base : String
  context_window : Nat
  max_tokens : Nat
deriving DecidableEq, Repr

/-- The shared Open Interpreter object's fields written by the providers. -/
structure Interpreter where
  offline : Bool
  llm : LLMState
  auto_run : Bool
  verbose : Bool
deriving DecidableEq, Repr

/-- The configuration dictionary handed to `configure_interpreter`; each field
is optional because the providers read it via `config.get(key, default)`. -/
structure RuntimeConfig where
  provider : Option String := none
  offline : Option Bool := none
  model : Option String := none
  api_key : Option String := none
  api_base : Option String := none
  context_window : Option Nat := none
  max_tokens : Option Nat := none
  auto_run : Option Bool := none
  verbose : Option Bool := none
deriving DecidableEq, Repr

/-- `OllamaProvider.configure_interpreter`: `self_api_base` stands for the
provider instance's `self.api_base`.  The model is taken from the config
(default `"llama3"`) and has `"ollama/"` prepended when it does not already
start with it. -/
def OllamaProvider.configure_interpreter (self_api_base : String)
    (i : Interpreter) (config : RuntimeConfig) : Interpreter :=
  let model0 := config.model.getD "llama3"
  let model := if strStartsWith model0 "ollama/" then model0 else "ollama/" ++ model0
  { offline := true,
    llm := { i.llm with
      model := model,
      api_base := config.api_base.getD self_api_base,
      context_window := config.context_window.getD 4000,
      max_tokens := config.max_tokens.getD 3000 },
    auto_run := true,
    verbose := config.verbose.getD true }

/-- `DeepseekProvider.configure_interpreter`: `self_api_key` /
`self_api_base` stand for the provider instance's fields.  The context window
and max tokens default to 16000/8000 when the stored model id contains
`"coder"` (lower-cased), else 8192/4096. -/
def DeepseekProvider.configure_interpreter (self_api_key self_api_base : String)
    (i : Interpreter) (config : RuntimeConfig) : Interpreter :=
  let model := config.model.getD "deepseek-chat"
  let cw := if strContains (strToLower model) "coder"
    then config.context_window.getD 16000
    else config.context_window.getD 8192
  let mt := if strContains (strToLower model) "coder"
    then config.max_tokens.getD 8000
    else config.max_tokens.getD 4096
  { offline := false,
    llm := { i.llm with
      model := model,
      api_key := config.api_key.getD self_api_key,
      api_base := config.api_base.getD self_api_base,
      context_window := cw,
      max_tokens := mt },
    auto_run := true,
    verbose := config.verbose.getD false }

/-! ## Config (src/config.py) -/

/-- The environment variables read by `Config._get_ollama_config`; `none`
means the variable is unset. -/
structure Env where
  OLLAMA_MODEL : Option String := none
  OLLAMA_API_BASE : Option String := none
  OLLAMA_CONTEXT_WINDOW : Option String := none
  OLLAMA_MAX_TOKENS : Option String := none
  VERBOSE : Option String := none
deriving DecidableEq, Repr

/-- The default environment: no overriding variables set. -/
def Env.default : Env := {}

/-- Helper for `pyInt`: accumulate decimal digits, failing on any
non-digit. -/
def digitsToNat (acc : Nat) : List Char → Option Nat
  | [] => some acc
  | c :: cs =>
    if c.isDigit then digitsToNat (acc * 10 + (c.toNat - 48)) cs else none

/-- Python `int(s)` on the numeric environment strings: `none` models the
fatal `ValueError` on a malformed value (only nonnegative decimal literals
appear in this code base; signs and surrounding whitespace are not
modelled). -/
def pyInt (s : String) : Option Nat :=
  match s.data with
  | [] => none
  | l => digitsToNat 0 l

/-- `Config._get_ollama_config` as a function of the environment; `none`
models the startup failure when a numeric variable fails to parse.  Note the
source's model default is the literal `"llama3.1"`. -/
def Config._get_ollama_config (env : Env) : Option RuntimeConfig :=
  match pyInt (env.OLLAMA_CONTEXT_WINDOW.getD "4000"),
        pyInt (env.OLLAMA_MAX_TOKENS.getD "3000") with
  | some cw, some mt =>
    some { provider := some "ollama",
           offline := some true,
           model := some (env.OLLAMA_MODEL.getD "llama3.1"),
           api_base := some (env.OLLAMA_API_BASE.getD "http://localhost:11434"),
           context_window := some cw,
           max_tokens := some mt,
           auto_run := some true,
           verbose := some (strToLower (env.VERBOSE.getD "true") == "true") }
  | _, _ => none

/-! ## Orchestration (src/app.py, configure_interpreter) -/

/-- What `app.configure_interpreter` ends up doing: configured with the named
provider's policy, or the caught exception was swallowed with nothing
reconfigured, or an exception propagated to the caller. -/
inductive ConfigureOutcome where
  | configured (providerId : String)
  | swallowed
  | raised (e : String)
deriving DecidableEq, Repr

/-- `app.configure_interpreter`.  `cfg` is `Config.get_model_config()` and
`openaiCfg` is `Config._get_openai_config()`; `tryConf id c` abstracts the
body `providers.get_provider(id).configure_interpreter(interpreter, c)`
(including a possible `get_provider` failure), returning `Except.error e`
when that body raises `e`.  On a first-attempt exception the code retries
with the OpenAI provider and config only when the selected id is not
`"openai"`; a second-attempt exception is not caught. -/
def app.configure_interpreter (cfg openaiCfg : RuntimeConfig)
    (tryConf : String → RuntimeConfig → Except String Unit) : ConfigureOutcome :=
  let providerId := cfg.provider.getD "openai"
  match tryConf providerId cfg with
  | .ok _ => .configured providerId
  | .error _ =>
    if providerId != "openai" then
      match tryConf "openai" openaiCfg with
      | .ok _ => .configured "openai"
      | .error e => .raised e
    else
      .swallowed

/-! ## ToolManager (src/tools/manager.py) -/

/-- A function's parameter schema, treated as opaque JSON.  `defaultSchema`
is the literal fallback dictionary (an object schema with no properties and
no required fields) that `get_tool_functions` substitutes when the metadata
has no `"parameters"` key. -/
inductive ParamSchema where
  | schema (raw : String)
  | defaultSchema
deriving DecidableEq, Repr

/-- The `__tool_metadata__` dictionary attached to a tagged callable; both
keys are read via `metadata.get`. -/
structure FuncMetadata where
  description : Option String := none
  parameters : Option ParamSchema := none
deriving DecidableEq, Repr

/-- One loaded tool's registry entry (`tool_info` in `add_tool_from_path`);
`functions` is the association list of tagged callables in discovery order,
keyed by attribute name.  The opaque module handle and source path are not
modelled. -/
structure ToolInfo where
  name : String
  description : String := ""
  version : String := "0.1.0"
  functions : List (String × FuncMetadata) := []
deriving DecidableEq, Repr

/-- Python-dict insertion into `self.loaded_tools`: replacing in place on an
existing key, appending otherwise (dicts preserve insertion order). -/
def dictInsert (reg : List (String × ToolInfo)) (k : String) (v : ToolInfo) :
    List (String × ToolInfo) :=
  if reg.any (fun p => p.1 == k) then
    reg.map (fun p => if p.1 == k then (k, v) else p)
  else
    reg ++ [(k, v)]

/-- The `ToolManager` state touched by tool acquisition: whether the tools
root directory exists, the names of subdirectories under it, and the
`loaded_tools` dictionary in insertion order. -/
structure ToolManagerState where
  rootExists : Bool
  dirs : List String
  loaded_tools : List (String × ToolInfo)
deriving DecidableEq, Repr

/-- Errors raised by `add_tool_from_github` (both are `ValueError` in the
source; the spec names the clone failure `CloneError`).  `cloneError` carries
the git process's stderr text, `githubError` the wrapped message from a
failure after a successful clone. -/
inductive ToolError where
  | cloneError (stderr : String)
  | githubError (msg : String)
deriving DecidableEq, Repr

/-- The repo name derived from the URL: final `/`-separated segment with a
trailing `".git"` stripped. -/
def repoNameOfUrl (url : String) : String :=
  let n := (url.splitOn "/").getLastD ""
  if n.endsWith ".git" then n.dropRight 4 else n

/-- The unique clone destination directory name `f"<repo_name>_<uuid8>"`;
the random suffix is a parameter. -/
def githubToolDir (url suffix : String) : String :=
  repoNameOfUrl url ++ "_" ++ suffix

/-- Outcome of the `git clone` subprocess: success, or a non-zero exit with
the given stderr, `madeDir` recording whether a partial destination directory
was created before the failure. -/
inductive CloneOutcome where
  | success
  | failure (stderr : String) (madeDir : Bool)
deriving DecidableEq, Repr

/-- `ToolManager.add_tool_from_github`.  `clone` is the subprocess outcome;
`load` abstracts `add_tool_from_path tool_dir repo_name` (dynamic import),
whose failure message `msg` is the raised `ValueError`'s text.  On a clone
failure the partially created directory is removed (`shutil.rmtree` guarded
by `os.path.exists`) and a clone error carrying stderr is raised; on a load
failure after a successful clone the directory is likewise removed and the
wrapped error is raised; on success the tool is registered under the repo
name. -/
def ToolManager.add_tool_from_github (st : ToolManagerState)
    (url _branch suffix : String) (clone : CloneOutcome)
    (load : Except String ToolInfo) :
    ToolManagerState × Except ToolError ToolInfo :=
  let toolDir := githubToolDir url suffix
  match clone with
  | .success =>
    let dirs1 := st.dirs ++ [toolDir]
    match load with
    | .ok info =>
      ({ st with dirs := dirs1,
                 loaded_tools := dictInsert st.loaded_tools (repoNameOfUrl url) info },
       .ok info)
    | .error msg =>
      ({ st with dirs := dirs1.filter (fun d => d ≠ toolDir) },
       .error (.githubError ("Failed to add tool from GitHub: " ++ msg)))
  | .failure stderr madeDir =>
    let dirs1 := if madeDir then st.dirs ++ [toolDir] else st.dirs
    ({ st with dirs := dirs1.filter (fun d => d ≠ toolDir) },
     .error (.cloneError stderr))

/-- One entry of the function-calling schema produced by
`get_tool_functions`. -/
structure FunctionSchema where
  name : String
  description : String
  parameters : ParamSchema
deriving DecidableEq, Repr

/-- `ToolManager.get_tool_functions`: for every loaded tool (in dict order)
and every tagged function (in discovery order), one schema entry named
`f"<tool_name>_<func_name>"` with the metadata's description (default `""`)
and parameters (default object schema). -/
def ToolManager.get_tool_functions (loaded_tools : List (String × ToolInfo)) :
    List FunctionSchema :=
  loaded_tools.flatMap fun p =>
    p.2.functions.map fun f =>
      { name := p.1 ++ "_" ++ f.1,
        description := (f.2.description.getD ""),
        parameters := (f.2.parameters.getD ParamSchema.defaultSchema) }

/-- Outcome of probing an optional MCP-server capability: the attribute is
absent (or not callable), or the call returns a value, or the call raises. -/
inductive CapResult (α : Type) where
  | absent : CapResult α
  | ok (a : α) : CapResult α
  | raises : CapResult α
deriving DecidableEq, Repr

/-- A registered MCP server handle as observed by `get_mcp_server_info`:
its `DESCRIPTION` / `VERSION` attributes (with the getattr defaults already
applied) and the behavior of its optional `get_status` / `get_endpoints`
capabilities. -/
structure MCPServer where
  description : String := ""
  version : String := "0.1.0"
  get_status : CapResult String := .absent
  get_endpoints : CapResult (List String) := .absent
deriving DecidableEq, Repr

/-- One entry of the report produced by `get_mcp_server_info`. -/
structure ServerInfo where
  name : String
  status : String
  description : String
  version : String
  endpoints : List String
deriving DecidableEq, Repr

/-- The per-server body of `ToolManager.get_mcp_server_info`: status starts
as `"unknown"`, is replaced by the `get_status` result when the capability
exists, and by `"error"` when the call raises; endpoints start empty, are
replaced by the `get_endpoints` result, and reset to `[]` when the call
raises. -/
def ToolManager.mcp_server_info (name : String) (s : MCPServer) : ServerInfo :=
  let status := match s.get_status with
    | .absent => "unknown"
    | .ok st => st
    | .raises => "error"
  let endpoints := match s.get_endpoints with
    | .absent => []
    | .ok es => es
    | .raises => []
  { name := name, status := status, description := s.description,
    version := s.version, endpoints := endpoints }

/-- `ToolManager.get_mcp_server_info` over the whole `mcp_servers` dict
(in insertion order); it never raises. -/
def ToolManager.get_mcp_server_info (servers : List (String × MCPServer)) :
    List ServerInfo :=
  servers.map fun p => ToolManager.mcp_server_info p.1 p.2

/-! ## Theorems -/

/-- Stated from the spec's words for C1: the ollama static fallback sequence
sorted per that backend's `(family, name)` family rule — the value the claim
predicts for a failed fetch. -/
def specSortedOllamaFallback : List (Model OllamaApiModel) :=
  stableSort famNameLe OllamaProvider.default_models

/-- C1 counterexample: on a transport error the ollama provider returns its
hardcoded fallback list in literal source order, and that order is NOT the
`(family, name)` sorted order the claim asserts (the `"Code Llama"` entry of
family `"Llama"` sits last, after both `"Mistral"` entries). -/
theorem C1_fallback_not_sorted_cex :
    (OllamaProvider.list_models none Fetch.error).1 = OllamaProvider.default_models ∧
    (OllamaProvider.list_models none Fetch.error).1 ≠ specSortedOllamaFallback := by
  decide

/-- C1 (amended): for every backend's provider, when the catalog fetch raises
a transport error or returns a non-200 status, `list_models` returns exactly
that backend's hardcoded static fallback sequence in its literal source order
(the per-backend family sort is applied only on the 200 success path), and
does not raise (the embedding is a total function). -/
theorem C1_fallback_literal_defaults (status : Nat) (h : status ≠ 200) :
    ((∀ p : List OllamaApiModel,
        OllamaProvider.list_models none (Fetch.response status p) =
          (OllamaProvider.default_models, none)) ∧
      OllamaProvider.list_models none Fetch.error =
        (OllamaProvider.default_models, none)) ∧
    ((∀ p : List OpenAIApiModel,
        OpenAIProvider.list_models none (Fetch.response status p) =
          (OpenAIProvider.default_models, none)) ∧
      OpenAIProvider.list_models none Fetch.error =
        (OpenAIProvider.default_models, none)) ∧
    ((∀ p : List DeepseekApiModel,
        DeepseekProvider.list_models none (Fetch.response status p) =
          (DeepseekProvider.default_models, none)) ∧
      DeepseekProvider.list_models none Fetch.error =
        (DeepseekProvider.default_models, none)) ∧
    ((∀ p : List MHWApiModel,
        MHWProvider.list_models none (Fetch.response status p) =
          (MHWProvider.default_models, none)) ∧
      MHWProvider.list_models none Fetch.error =
        (MHWProvider.default_models, none)) := by
  have hb : (status == 200) = false := by
    simpa using h
  refine ⟨⟨fun p => ?_, rfl⟩, ⟨fun p => ?_, rfl⟩, ⟨fun p => ?_, rfl⟩, fun p => ?_, rfl⟩ <;>
    simp [OllamaProvider.list_models, OpenAIProvider.list_models,
      DeepseekProvider.list_models, MHWProvider.list_models, hb]

/-- C1 witness: the amended theorem applied at status 404 with an empty
payload, for the ollama backend. -/
theorem C1_fallback_literal_defaults_witness :
    OllamaProvider.list_models none (Fetch.response 404 []) =
      (OllamaProvider.default_models, none) :=
  (C1_fallback_literal_defaults 404 (by decide)).1.1 []

/-- C9: for the openai, ollama and deepseek providers, the per-instance
catalog cache is populated only by a call whose fetch succeeds with status
200 (and then it holds exactly the normalized payload); a call that took the
fallback path (transport error or non-200 status) leaves the cache empty, so
a subsequent call starting from that cache re-attempts the fetch — here shown
by a successful re-fetch returning the normalized payload rather than any
cached fallback. -/
theorem C9_cache_only_populated_on_success :
    ((∀ f : Fetch OpenAIApiModel, ∀ ms,
        (OpenAIProvider.list_models none f).2 = some ms →
          ∃ p, f = Fetch.response 200 p ∧ ms = OpenAIProvider.normalize p) ∧
      (∀ status, status ≠ 200 → ∀ p : List OpenAIApiModel,
        (OpenAIProvider.list_models none (Fetch.response status p)).2 = none) ∧
      (OpenAIProvider.list_models none Fetch.error).2 = none ∧
      (∀ p : List OpenAIApiModel,
        (OpenAIProvider.list_models
          (OpenAIProvider.list_models none Fetch.error).2
          (Fetch.response 200 p)).1 = OpenAIProvider.normalize p)) ∧
    ((∀ f : Fetch OllamaApiModel, ∀ ms,
        (OllamaProvider.list_models none f).2 = some ms →
          ∃ p, f = Fetch.response 200 p ∧ ms = OllamaProvider.normalize p) ∧
      (∀ status, status ≠ 200 → ∀ p : List OllamaApiModel,
        (OllamaProvider.list_models none (Fetch.response status p)).2 = none) ∧
      (OllamaProvider.list_models none Fetch.error).2 = none ∧
      (∀ p : List OllamaApiModel,
        (OllamaProvider.list_models
          (OllamaProvider.list_models none Fetch.error).2
          (Fetch.response 200 p)).1 = OllamaProvider.normalize p)) ∧
    ((∀ f : Fetch DeepseekApiModel, ∀ ms,
        (DeepseekProvider.list_models none f).2 = some ms →
          ∃ p, f = Fetch.response 200 p ∧ ms = DeepseekProvider.normalize p) ∧
      (∀ status, status ≠ 200 → ∀ p : List DeepseekApiModel,
        (DeepseekProvider.list_models none (Fetch.response status p)).2 = none) ∧
      (DeepseekProvider.list_models none Fetch.error).2 = none ∧
      (∀ p : List DeepseekApiModel,
        (DeepseekProvider.list_models
          (DeepseekProvider.list_models none Fetch.error).2
          (Fetch.response 200 p)).1 = DeepseekProvider.normalize p)) := by
  refine ⟨⟨fun f ms h => ?_, fun s hs p => ?_, rfl, fun p => ?_⟩,
      ⟨fun f ms h => ?_, fun s hs p => ?_, rfl, fun p => ?_⟩,
      ⟨fun f ms h => ?_, fun s hs p => ?_, rfl, fun p => ?_⟩⟩ <;>
    first
    | (cases f with
        | error =>
          simp [OpenAIProvider.list_models, OllamaProvider.list_models,
            DeepseekProvider.list_models] at h
        | response s p =>
          by_cases hs : s = 200
          · subst hs
            refine ⟨p, rfl, ?_⟩
            simpa [OpenAIProvider.list_models, OllamaProvider.list_models,
              DeepseekProvider.list_models] using h.symm
          · have hb : (s == 200) = false := by simpa using hs
            simp [OpenAIProvider.list_models, OllamaProvider.list_models,
              DeepseekProvider.list_models, hb] at h)
    | (have hb : (s == 200) = false := by simpa using hs
       simp [OpenAIProvider.list_models, OllamaProvider.list_models,
         DeepseekProvider.list_models, hb])
    | simp [OpenAIProvider.list_models, OllamaProvider.list_models,
        DeepseekProvider.list_models]

/-- C9 witness: after a failed fetch the openai cache is still empty, and the
populated cache matches the normalized payload of a concrete 200 response. -/
theorem C9_cache_only_populated_on_success_witness :
    (OpenAIProvider.list_models none (Fetch.response 500 [])).2 = none :=
  C9_cache_only_populated_on_success.1.2.1 500 (by decide) []

/-- C10: on a status-200 response whose payload yields zero models, the
deepseek and mhw providers substitute (and cache) their static default
sequence, while the openai provider returns and caches the empty sequence
without falling back to its defaults. -/
theorem C10_empty_success_payload :
    DeepseekProvider.list_models none (Fetch.response 200 []) =
      (DeepseekProvider.default_models, some DeepseekProvider.default_models) ∧
    MHWProvider.list_models none (Fetch.response 200 []) =
      (MHWProvider.default_models, some MHWProvider.default_models) ∧
    (∀ p : List OpenAIApiModel,
      p.filter (fun m => strContains (strToLower m.id) "gpt") = [] →
        OpenAIProvider.list_models none (Fetch.response 200 p) = ([], some [])) := by
  refine ⟨by decide, by decide, fun p hp => ?_⟩
  simp [OpenAIProvider.list_models, OpenAIProvider.normalize, hp, stableSort]

/-- C10 witness: a 200 response whose only entry is filtered out (no
`"gpt"` in the id) makes the openai provider return and cache `[]`. -/
theorem C10_empty_success_payload_witness :
    OpenAIProvider.list_models none
      (Fetch.response 200 [{ id := "text-embedding-3-small" }]) = ([], some []) :=
  C10_empty_success_payload.2.2 [{ id := "text-embedding-3-small" }] (by decide)

/-- A concrete interpreter state used to instantiate configuration
theorems. -/
def interp0 : Interpreter :=
  { offline := false,
    llm := { model := "", api_key := "", api_base := "",
             context_window := 0, max_tokens := 0 },
    auto_run := false,
    verbose := false }

/-- C4: configuring the deepseek backend with model `"deepseek-coder"` and no
explicit context_window/max_tokens entries sets the shared runtime object's
context_window to 16000 and max_tokens to 8000; with model `"deepseek-chat"`
it sets them to 8192 and 4096. -/
theorem C4_deepseek_model_budgets (i : Interpreter) (k b : String)
    (cfg cfg' : RuntimeConfig)
    (h1 : cfg.model = some "deepseek-coder") (h2 : cfg.context_window = none)
    (h3 : cfg.max_tokens = none)
    (h4 : cfg'.model = some "deepseek-chat") (h5 : cfg'.context_window = none)
    (h6 : cfg'.max_tokens = none) :
    ((DeepseekProvider.configure_interpreter k b i cfg).llm.context_window = 16000 ∧
      (DeepseekProvider.configure_interpreter k b i cfg).llm.max_tokens = 8000) ∧
    ((DeepseekProvider.configure_interpreter k b i cfg').llm.context_window = 8192 ∧
      (DeepseekProvider.configure_interpreter k b i cfg').llm.max_tokens = 4096) := by
  refine ⟨⟨?_, ?_⟩, ?_, ?_⟩ <;>
    simp [DeepseekProvider.configure_interpreter, h1, h2, h3, h4, h5, h6] <;>
    decide

/-- C4 witness: the theorem applied to the two concrete configurations. -/
theorem C4_deepseek_model_budgets_witness :
    (DeepseekProvider.configure_interpreter "key" "base" interp0
      { model := some "deepseek-coder" }).llm.context_window = 16000 ∧
    (DeepseekProvider.configure_interpreter "key" "base" interp0
      { model := some "deepseek-chat" }).llm.max_tokens = 4096 :=
  ⟨(C4_deepseek_model_budgets interp0 "key" "base"
      { model := some "deepseek-coder" } { model := some "deepseek-chat" }
      rfl rfl rfl rfl rfl rfl).1.1,
   (C4_deepseek_model_budgets interp0 "key" "base"
      { model := some "deepseek-coder" } { model := some "deepseek-chat" }
      rfl rfl rfl rfl rfl rfl).2.2⟩

/-- C5: for every model string `m`, configuring the ollama backend with an
unprefixed `m` stores `"ollama/" ++ m`, and configuring with an
already-prefixed value stores it unchanged (no double namespace token). -/
theorem C5_ollama_namespacing (i : Interpreter) (base : String)
    (cfg : RuntimeConfig) (m : String) (hm : cfg.model = some m) :
    (strStartsWith m "ollama/" = false →
      (OllamaProvider.configure_interpreter base i cfg).llm.model =
        "ollama/" ++ m) ∧
    (strStartsWith m "ollama/" = true →
      (OllamaProvider.configure_interpreter base i cfg).llm.model = m) := by
  constructor <;> intro h <;>
    simp [OllamaProvider.configure_interpreter, hm, h]

/-- C5 witness: the theorem applied at `"llama3"` (unprefixed) and
`"ollama/llama3"` (already prefixed). -/
theorem C5_ollama_namespacing_witness :
    (OllamaProvider.configure_interpreter "http://localhost:11434" interp0
      { model := some "llama3" }).llm.model = "ollama/" ++ "llama3" ∧
    (OllamaProvider.configure_interpreter "http://localhost:11434" interp0
      { model := some "ollama/llama3" }).llm.model = "ollama/llama3" :=
  ⟨(C5_ollama_namespacing interp0 "http://localhost:11434"
      { model := some "llama3" } "llama3" rfl).1 (by decide),
   (C5_ollama_namespacing interp0 "http://localhost:11434"
      { model := some "ollama/llama3" } "ollama/llama3" rfl).2 (by decide)⟩

/-- C8 counterexample: under the default environment the resolved ollama
model is the literal `"llama3.1"`, not `"llama3"` as the claim states. -/
theorem C8_default_model_cex :
    (Config._get_ollama_config Env.default).map (fun c => c.model) =
      some (some "llama3.1") ∧
    ("llama3.1" : String) ≠ "llama3" := by decide

/-- C8 (amended): under the default environment the configuration resolved
for the ollama backend has model `"llama3.1"` (before namespacing), api_base
`"http://localhost:11434"`, context_window 4000, max_tokens 3000, verbose
true and auto_run true (and no api_key entry). -/
theorem C8_default_ollama_config :
    Config._get_ollama_config Env.default =
      some { provider := some "ollama", offline := some true,
             model := some "llama3.1", api_key := none,
             api_base := some "http://localhost:11434",
             context_window := some 4000, max_tokens := some 3000,
             auto_run := some true, verbose := some true } := by
  decide

/-- C3 counterexample: when the selected backend is `"openai"` itself and
configuring it raises, `app.configure_interpreter` swallows the exception —
no retry is possible (the one attempt failed) and nothing propagates, so the
configure failure goes both unretried and unpropagated. -/
theorem C3_openai_failure_swallowed_cex :
    app.configure_interpreter { provider := some "openai" } {}
        (fun _ _ => Except.error "boom") = ConfigureOutcome.swallowed ∧
    ConfigureOutcome.swallowed ≠ ConfigureOutcome.raised "boom" ∧
    ConfigureOutcome.swallowed ≠ ConfigureOutcome.configured "openai" := by
  decide

/-- C3 (amended): if configuring the selected backend raises and that backend
is not `"openai"`, the orchestration retries once with the OpenAI provider
and config — succeeding, or propagating the retry's error; if the selected
backend is `"openai"` itself, the failure is swallowed with no retry and no
propagation. -/
theorem C3_fallback_retry_policy (cfg openaiCfg : RuntimeConfig)
    (tryConf : String → RuntimeConfig → Except String Unit) (e : String)
    (hfail : tryConf (cfg.provider.getD "openai") cfg = Except.error e) :
    (cfg.provider.getD "openai" ≠ "openai" →
      ((tryConf "openai" openaiCfg = Except.ok () →
          app.configure_interpreter cfg openaiCfg tryConf =
            ConfigureOutcome.configured "openai") ∧
        (∀ e2, tryConf "openai" openaiCfg = Except.error e2 →
          app.configure_interpreter cfg openaiCfg tryConf =
            ConfigureOutcome.raised e2))) ∧
    (cfg.provider.getD "openai" = "openai" →
      app.configure_interpreter cfg openaiCfg tryConf =
        ConfigureOutcome.swallowed) := by
  constructor
  · intro hne
    constructor
    · intro hok
      simp [app.configure_interpreter, hfail, hok, hne]
    · intro e2 he2
      simp [app.configure_interpreter, hfail, he2, hne]
  · intro heq
    rw [heq] at hfail
    simp [app.configure_interpreter, heq, hfail]

/-- Concrete configure behavior for the C3 witness: the ollama attempt
raises, the openai attempt succeeds. -/
def c3TryConf : String → RuntimeConfig → Except String Unit :=
  fun id _ => if id == "ollama" then Except.error "down" else Except.ok ()

/-- C3 witness: the amended theorem applied with selected backend
`"ollama"` whose configure raises and an openai retry that succeeds. -/
theorem C3_fallback_retry_policy_witness :
    app.configure_interpreter { provider := some "ollama" } {} c3TryConf =
      ConfigureOutcome.configured "openai" :=
  ((C3_fallback_retry_policy { provider := some "ollama" } {} c3TryConf "down"
      rfl).1 (by decide)).1 rfl

/-- C2: on a clone failure, `add_tool_from_github` raises the clone error
(`ValueError`, the spec's `CloneError`) carrying the git process's stderr,
the partially created destination directory is removed, the tools root
directory still exists, and the registry of loaded tools is unchanged. -/
theorem C2_clone_failure_cleanup (st : ToolManagerState)
    (url branch suffix stderr : String) (madeDir : Bool)
    (load : Except String ToolInfo) (hroot : st.rootExists = true) :
    (ToolManager.add_tool_from_github st url branch suffix
        (CloneOutcome.failure stderr madeDir) load).2 =
      Except.error (ToolError.cloneError stderr) ∧
    (ToolManager.add_tool_from_github st url branch suffix
        (CloneOutcome.failure stderr madeDir) load).1.rootExists = true ∧
    (ToolManager.add_tool_from_github st url branch suffix
        (CloneOutcome.failure stderr madeDir) load).1.loaded_tools =
      st.loaded_tools ∧
    githubToolDir url suffix ∉
      (ToolManager.add_tool_from_github st url branch suffix
        (CloneOutcome.failure stderr madeDir) load).1.dirs := by
  refine ⟨rfl, hroot, rfl, ?_⟩
  simp [ToolManager.add_tool_from_github, List.mem_filter]

/-- C2 witness: the theorem applied at a concrete state and clone failure. -/
theorem C2_clone_failure_cleanup_witness :
    (ToolManager.add_tool_from_github
        { rootExists := true, dirs := [], loaded_tools := [] }
        "https://github.com/u/repo.git" "main" "abc12345"
        (CloneOutcome.failure "fatal: repository not found" true)
        (Except.error "unused")).2 =
      Except.error (ToolError.cloneError "fatal: repository not found") :=
  (C2_clone_failure_cleanup
    { rootExists := true, dirs := [], loaded_tools := [] }
    "https://github.com/u/repo.git" "main" "abc12345"
    "fatal: repository not found" true (Except.error "unused") rfl).1

/-- A loaded tool named `"a"` with one tagged function `"b_c"`. -/
def c6ToolA : ToolInfo :=
  { name := "a", functions := [("b_c", { description := some "f1" })] }

/-- A loaded tool named `"a_b"` with one tagged function `"c"`. -/
def c6ToolAB : ToolInfo :=
  { name := "a_b", functions := [("c", { description := some "f2" })] }

/-- A valid registry state (unique tool keys, unique function names within
each tool) whose namespaced function names collide. -/
def c6Reg : List (String × ToolInfo) :=
  [("a", c6ToolA), ("a_b", c6ToolAB)]

/-- C6 counterexample: a valid registry state in which two distinct tagged
functions both produce the flattened name `"a_b_c"` — the resulting names are
not pairwise distinct, refuting the uniquely-keyed part of the claim. -/
theorem C6_duplicate_names_cex :
    ((ToolManager.get_tool_functions c6Reg).map (fun f => f.name)) =
      ["a_b_c", "a_b_c"] ∧
    ¬ ((ToolManager.get_tool_functions c6Reg).map (fun f => f.name)).Nodup ∧
    (c6Reg.map Prod.fst).Nodup ∧
    (∀ p ∈ c6Reg, (p.2.functions.map Prod.fst).Nodup) := by
  decide

/-- C6 (amended): `get_tool_functions` returns exactly one entry per tagged
function of each loaded tool — the total length equals the sum of the tools'
function counts — and each entry is named `"<toolname>_<functionname>"` with
that function's description and parameter schema; the names are, however, not
guaranteed pairwise distinct. -/
theorem C6_tool_functions_schema (reg : List (String × ToolInfo)) :
    (ToolManager.get_tool_functions reg).length =
      (reg.map (fun p => p.2.functions.length)).sum ∧
    ∀ t info fn md, (t, info) ∈ reg → (fn, md) ∈ info.functions →
      ({ name := t ++ "_" ++ fn,
         description := md.description.getD "",
         parameters := md.parameters.getD ParamSchema.defaultSchema } :
        FunctionSchema) ∈ ToolManager.get_tool_functions reg := by
  constructor
  · induction reg with
    | nil => rfl
    | cons p l ih =>
      simp only [ToolManager.get_tool_functions, List.flatMap_cons,
        List.length_append, List.length_map, List.map_cons, List.sum_cons]
      simp only [ToolManager.get_tool_functions] at ih
      omega
  · intro t info fn md hreg hfn
    simp only [ToolManager.get_tool_functions, List.mem_flatMap]
    exact ⟨(t, info), hreg, List.mem_map.mpr ⟨(fn, md), hfn, rfl⟩⟩

/-- C6 witness: the amended theorem applied to the concrete registry
`c6Reg`: the flattened list has one entry per tagged function, and the entry
built from tool `"a"`'s function `"b_c"` occurs in it. -/
theorem C6_tool_functions_schema_witness :
    (ToolManager.get_tool_functions c6Reg).length =
      (c6Reg.map (fun p => p.2.functions.length)).sum ∧
    ({ name := "a" ++ "_" ++ "b_c", description := "f1",
       parameters := ParamSchema.defaultSchema } : FunctionSchema) ∈
      ToolManager.get_tool_functions c6Reg :=
  ⟨(C6_tool_functions_schema c6Reg).1,
   (C6_tool_functions_schema c6Reg).2 "a" c6ToolA "b_c"
     { description := some "f1" } (by decide) (by decide)⟩

/-- C7 counterexample: for a registered server whose `get_status` capability
raises, the produced entry's status is `"error"`, not `"unknown"` as the
claim states. -/
theorem C7_status_error_cex :
    (ToolManager.mcp_server_info "srv"
        { get_status := CapResult.raises }).status = "error" ∧
    ("error" : String) ≠ "unknown" := by
  decide

/-- C7 (amended): the entry produced for a registered server has status
`"unknown"` when the handle lacks the `get_status` capability but `"error"`
when the capability call raises; its endpoints are empty both when
`get_endpoints` is absent and when the call raises; and the call never
propagates an exception (the embedding is total: every handle yields an
entry). -/
theorem C7_mcp_info_defaults (name : String) (s : MCPServer) :
    ((s.get_status = CapResult.absent →
        (ToolManager.mcp_server_info name s).status = "unknown") ∧
      (s.get_status = CapResult.raises →
        (ToolManager.mcp_server_info name s).status = "error") ∧
      (s.get_endpoints = CapResult.absent →
        (ToolManager.mcp_server_info name s).endpoints = []) ∧
      (s.get_endpoints = CapResult.raises →
        (ToolManager.mcp_server_info name s).endpoints = [])) ∧
    ∀ servers : List (String × MCPServer),
      (ToolManager.get_mcp_server_info servers).length = servers.length := by
  refine ⟨⟨fun h => ?_, fun h => ?_, fun h => ?_, fun h => ?_⟩, fun servers => ?_⟩
  · simp [ToolManager.mcp_server_info, h]
  · simp [ToolManager.mcp_server_info, h]
  · simp [ToolManager.mcp_server_info, h]
  · simp [ToolManager.mcp_server_info, h]
  · simp [ToolManager.get_mcp_server_info]

/-- C7 witness: the amended theorem applied to a server lacking both
capabilities. -/
theorem C7_mcp_info_defaults_witness :
    (ToolManager.mcp_server_info "srv"
        ({} : MCPServer)).status = "unknown" ∧
    (ToolManager.mcp_server_info "srv"
        ({} : MCPServer)).endpoints = [] :=
  ⟨(C7_mcp_info_defaults "srv" {}).1.1 rfl,
   (C7_mcp_info_defaults "srv" {}).1.2.2.1 rfl⟩

end ThePanel
